import Mathlib

/-!
Shallow embedding of the apartment-rent-calculator application
(`data_generator.py`, `train_model.py`, `api.py`, `app.py`).

Numeric conventions: Python ints are modelled as `Int`, Python floats as
`Rat` (float rounding behaviour is abstracted; no claim here hinges on
tie-breaking of `round`).  External library collaborators (sklearn's
`LabelEncoder`, numpy's random draws, the MAPIE conformal wrapper, the
FastAPI request-validation layer) are modelled from their documented
behaviour, which the source relies on; everything else is translated
directly from the repository's Python source.
-/

namespace RentApp

/-- sklearn `LabelEncoder` (external collaborator of `train_model.py`):
`classes_` is the sorted list of distinct observed labels. -/
structure LabelEncoder where
  classes : List String
deriving Repr, DecidableEq

/-- Lexicographic code-point comparison on character lists (the order
`np.unique` uses on ASCII label strings). -/
def strLeB : List Char → List Char → Bool
  | [], _ => true
  | _ :: _, [] => false
  | c :: cs, d :: ds =>
    if c.toNat < d.toNat then true
    else if d.toNat < c.toNat then false
    else strLeB cs ds

/-- Lexicographic code-point comparison on strings. -/
def strLe (a b : String) : Bool := strLeB a.data b.data

/-- Insert a label into a sorted label list (helper for `LabelEncoder.fit`;
structural recursion so that concrete encoders evaluate by `decide`). -/
def insertSorted (s : String) : List String → List String
  | [] => [s]
  | t :: ts => if strLe s t then s :: t :: ts else t :: insertSorted s ts

/-- Sort a label list (insertion sort). -/
def sortLabels (l : List String) : List String := l.foldr insertSorted []

/-- `LabelEncoder.fit`: `classes_ = np.unique(values)`, the sorted
deduplicated label list. -/
def LabelEncoder.fit (values : List String) : LabelEncoder :=
  ⟨sortLabels values.dedup⟩

/-- `LabelEncoder.transform` on a single label: its index in `classes_`. -/
def LabelEncoder.transform (le : LabelEncoder) (s : String) : Nat :=
  le.classes.indexOf s

/-- `LabelEncoder.inverse_transform` on a single code: lookup in `classes_`. -/
def LabelEncoder.inverse (le : LabelEncoder) (code : Nat) : Option String :=
  le.classes.get? code

/-- `round(x, 2)` from `api.py`: round to two decimal places. -/
def round2 (x : ℚ) : ℚ := (round (100 * x) : ℤ) / 100

/-- Output of one call `conformal_model.predict(features_array, alpha)`:
`prediction[0]`, `prediction_intervals[0, 0, 0]`, `prediction_intervals[0, 1, 0]`. -/
structure ConformalOutput where
  prediction : ℚ
  lower : ℚ
  upper : ℚ
deriving Repr, DecidableEq

/-- The four artifacts loaded at startup by `api.py` (and by `app.py`):
the two encoders and the conformal wrapper; the bare regressor is loaded
too but never called directly by either front end, so it is not part of
the behaviourally relevant state.  `conformalPredict` takes the encoded
feature row and the significance level `alpha`. -/
structure Artifacts where
  le_floor : LabelEncoder
  le_style : LabelEncoder
  conformalPredict : List ℚ → ℚ → ConformalOutput

/-- `ApartmentFeatures` (pydantic model in `api.py`), after validation. -/
structure ApartmentFeatures where
  rooms : Int
  bathrooms : Int
  total_surface : ℚ
  building_age : Int
  floor_material : String
  style : String
deriving Repr, DecidableEq

/-- A raw `/predict` request body, before pydantic bound checks. -/
structure RawFeatures where
  rooms : Int
  bathrooms : Int
  total_surface : ℚ
  building_age : Int
  floor_material : String
  style : String
deriving Repr, DecidableEq

/-- One pydantic bound violation: the field name and the `ge`/`le`
bounds declared on that `Field` in `ApartmentFeatures`. -/
structure FieldViolation where
  fieldName : String
  lo : ℚ
  hi : ℚ
deriving Repr, DecidableEq

/-- Errors a `/predict` request can produce: FastAPI request-validation
failure (pydantic bounds), or an explicit `HTTPException(status, detail)`;
the categorical 400s carry the message and the enumerated valid label set
from `le_*.classes_.tolist()`. -/
inductive ApiError where
  | validation : List FieldViolation → ApiError
  | http : Nat → String → List String → ApiError
deriving Repr, DecidableEq

/-- HTTP status of an error: FastAPI reports request-validation failures
with status 422 (Unprocessable Entity); `HTTPException` carries its own. -/
def ApiError.status : ApiError → Nat
  | .validation _ => 422
  | .http s _ _ => s

/-- The bound violations of a raw request against the `Field(ge, le)`
constraints of `ApartmentFeatures`: rooms 1–5, bathrooms 1–3,
total_surface 30–200, building_age 0–50. -/
def boundViolations (r : RawFeatures) : List FieldViolation :=
  (if r.rooms < 1 ∨ 5 < r.rooms then [⟨ "rooms", 1, 5⟩] else []) ++
  (if r.bathrooms < 1 ∨ 3 < r.bathrooms then [⟨ "bathrooms", 1, 3⟩] else []) ++
  (if r.total_surface < 30 ∨ 200 < r.total_surface then [⟨ "total_surface", 30, 200⟩] else []) ++
  (if r.building_age < 0 ∨ 50 < r.building_age then [⟨ "building_age", 0, 50⟩] else [])

/-- FastAPI/pydantic request validation for `ApartmentFeatures`: accept
the body iff every numeric field satisfies its declared bounds, else
reject with a 422 validation error listing the violated fields; the
handler is not entered on rejection. -/
def validateFeatures (r : RawFeatures) : Except ApiError ApartmentFeatures :=
  match boundViolations r with
  | [] => .ok ⟨r.rooms, r.bathrooms, r.total_surface, r.building_age, r.floor_material, r.style⟩
  | vs => .error (.validation vs)

/-- Successful `/predict` JSON response body. -/
structure PredictResponse where
  predicted_rent : ℚ
  ci_lower : ℚ
  ci_upper : ℚ
  confidence_level : String
  currency : String
  features : ApartmentFeatures
deriving Repr, DecidableEq

/-- The `features_array` built inside `predict_rent` in `api.py`:
`[[rooms, bathrooms, total_surface, building_age, floor_encoded, style_encoded]]`
(one row). -/
def apiFeaturesArray (art : Artifacts) (f : ApartmentFeatures) : List ℚ :=
  [(f.rooms : ℚ), (f.bathrooms : ℚ), f.total_surface, (f.building_age : ℚ),
   (art.le_floor.transform f.floor_material : ℚ), (art.le_style.transform f.style : ℚ)]

/-- The raw conformal call made by `predict_rent`:
`conformal_model.predict(features_array, alpha=0.05)`. -/
def apiRawPrediction (art : Artifacts) (f : ApartmentFeatures) : ConformalOutput :=
  art.conformalPredict (apiFeaturesArray art f) (5 / 100)

/-- `predict_rent` from `api.py` (handler body, after pydantic
validation): reject an unknown `floor_material` or `style` with an
`HTTPException(400)` whose detail enumerates the encoder's class list,
otherwise encode, call the conformal wrapper at `alpha = 0.05` and build
the response with values rounded to two decimals.  The `except` clauses
re-raise `HTTPException` unchanged and map any other exception to status
500; the embedded computation is total, so no 500 path arises here. -/
def predict_rent (art : Artifacts) (f : ApartmentFeatures) : Except ApiError PredictResponse :=
  if f.floor_material ∉ art.le_floor.classes then
    .error (.http 400 "Invalid floor_material. Valid values are:" art.le_floor.classes)
  else if f.style ∉ art.le_style.classes then
    .error (.http 400 "Invalid style. Valid values are:" art.le_style.classes)
  else
    let out := apiRawPrediction art f
    .ok { predicted_rent := round2 out.prediction
          ci_lower := round2 out.lower
          ci_upper := round2 out.upper
          confidence_level := "95%"
          currency := "USD"
          features := f }

/-- The whole `POST /predict` request path: framework validation of the
body into `ApartmentFeatures`, then the handler. -/
def handle_predict (art : Artifacts) (r : RawFeatures) : Except ApiError PredictResponse :=
  match validateFeatures r with
  | .error e => .error e
  | .ok f => predict_rent art f

/-- The `GET /info` response from `api.py`: hard-coded model type and
numeric `{"min", "max"}` literals, plus the two class lists read from
the loaded encoders. -/
structure InfoResponse where
  model_type : String
  roomsBounds : Int × Int
  bathroomsBounds : Int × Int
  total_surfaceBounds : Int × Int
  building_ageBounds : Int × Int
  floor_materials : List String
  styles : List String
deriving Repr, DecidableEq

/-- `model_info` from `api.py`. -/
def model_info (art : Artifacts) : InfoResponse :=
  { model_type := "RandomForestRegressor"
    roomsBounds := (1, 5)
    bathroomsBounds := (1, 3)
    total_surfaceBounds := (30, 200)
    building_ageBounds := (0, 50)
    floor_materials := art.le_floor.classes
    styles := art.le_style.classes }

/-- The fixed floor-material label set of `data_generator.py`. -/
def floor_materials : List String := ["Hardwood", "Carpet", "Tile", "Laminate", "Vinyl"]

/-- The fixed style label set of `data_generator.py`. -/
def styles : List String := ["Modern", "Contemporary", "Traditional", "Industrial", "Minimalist"]

/-- One row of the generated dataset (the columns of `apartment_data.csv`). -/
structure DataRow where
  rooms : Int
  bathrooms : Int
  total_surface : ℚ
  building_age : Int
  floor_material : String
  style : String
  monthly_rent : ℚ
deriving Repr, DecidableEq

/-- The random draws consumed by `generate_apartment_data`, one stream per
feature (numpy collaborator): `np.random.randint(1, 6)`,
`np.random.randint(1, 4)`, `np.random.uniform(30, 200)`,
`np.random.randint(0, 50)`, `np.random.choice` over each label set, and
the per-row rent multiplier `np.random.uniform(0.8, 1.2)`. -/
structure GenRng where
  roomsDraw : Nat → Int
  bathroomsDraw : Nat → Int
  surfaceDraw : Nat → ℚ
  ageDraw : Nat → Int
  floorDraw : Nat → String
  styleDraw : Nat → String
  noiseDraw : Nat → ℚ

/-- Range guarantees of the numpy draws: `randint(lo, hi)` yields integers
in `[lo, hi)`, `uniform(lo, hi)` yields values in `[lo, hi)`, `choice`
yields an element of its argument. -/
def GenRng.Valid (g : GenRng) : Prop :=
  (∀ i, 1 ≤ g.roomsDraw i ∧ g.roomsDraw i < 6) ∧
  (∀ i, 1 ≤ g.bathroomsDraw i ∧ g.bathroomsDraw i < 4) ∧
  (∀ i, 30 ≤ g.surfaceDraw i ∧ g.surfaceDraw i < 200) ∧
  (∀ i, 0 ≤ g.ageDraw i ∧ g.ageDraw i < 50) ∧
  (∀ i, g.floorDraw i ∈ floor_materials) ∧
  (∀ i, g.styleDraw i ∈ styles) ∧
  (∀ i, 8 / 10 ≤ g.noiseDraw i ∧ g.noiseDraw i < 12 / 10)

/-- The deterministic part of the rent formula in `generate_apartment_data`:
base 1000, +300 per room, +200 per bathroom, +10 per square meter,
−10 per year of age. -/
def baseRent (rooms bathrooms : Int) (surface : ℚ) (age : Int) : ℚ :=
  1000 + (rooms : ℚ) * 300 + (bathrooms : ℚ) * 200 + surface * 10 - (age : ℚ) * 10

/-- `generate_apartment_data(n_samples)` from `data_generator.py`: draw the
six feature columns, then compute each `monthly_rent` as the base formula
scaled by the row's uniform multiplier and floored at 500
(`max(base_rent, 500)`). -/
def generate_apartment_data (n_samples : Nat) (g : GenRng) : List DataRow :=
  (List.range n_samples).map fun i =>
    { rooms := g.roomsDraw i
      bathrooms := g.bathroomsDraw i
      total_surface := g.surfaceDraw i
      building_age := g.ageDraw i
      floor_material := g.floorDraw i
      style := g.styleDraw i
      monthly_rent :=
        max (baseRent (g.roomsDraw i) (g.bathroomsDraw i) (g.surfaceDraw i) (g.ageDraw i)
              * g.noiseDraw i) 500 }

/-- The feature column list of `train_model.py` (also used by `app.py` to
order the input columns). -/
def features : List String :=
  ["rooms", "bathrooms", "total_surface", "building_age",
   "floor_material_encoded", "style_encoded"]

/-- One encoded feature row `df[features]` of `train_model.py`: the four
numeric columns followed by the two integer-encoded categoricals. -/
def encodeRow (lf ls : LabelEncoder) (r : DataRow) : List ℚ :=
  [(r.rooms : ℚ), (r.bathrooms : ℚ), r.total_surface, (r.building_age : ℚ),
   (lf.transform r.floor_material : ℚ), (ls.transform r.style : ℚ)]

/-- The MAPIE wrapper as configured by `train_model.py`:
`MapieRegressor(estimator=base_model, method="plus", cv="prefit")`, then
`mapie.fit(X_train, y_train)` which, in prefit mode, only stores
calibration data and leaves the estimator as given (no refit). -/
structure MapieModel (R : Type) where
  estimator : R
  method : String
  cv : String
  calibX : List (List ℚ)
  calibY : List ℚ

/-- What `train_model` produces and persists, parametric in the regressor
type `R` (the fitting algorithm itself is an external sklearn
collaborator, passed in as `fitAlg`). -/
structure TrainResult (R : Type) where
  le_floor : LabelEncoder
  le_style : LabelEncoder
  base_model : R
  mapie : MapieModel R
  heldX : List (List ℚ)
  heldY : List ℚ
  evalAlpha : ℚ

/-- sklearn `train_test_split(test_size=0.2)` sizing: the held-out subset
has `ceil(0.2 * n)` rows; the split itself takes the shuffled rows
(shuffling with `random_state=42` is abstracted as the `shuffle`
parameter below). -/
def testSize (n : Nat) : Nat := (n + 4) / 5

/-- `train_model` from `train_model.py`: fit one label encoder per
categorical column, encode, split 80/20, fit the base regressor on the
training subset only, wrap it in the prefit MAPIE layer (calibrated on
the training subset, estimator unchanged), and evaluate at
`alpha = 0.05`. -/
def train_model {R : Type} (df : List DataRow)
    (fitAlg : List (List ℚ) → List ℚ → R)
    (shuffle : List (List ℚ × ℚ) → List (List ℚ × ℚ)) : TrainResult R :=
  let lf := LabelEncoder.fit (df.map (·.floor_material))
  let ls := LabelEncoder.fit (df.map (·.style))
  let X := df.map (encodeRow lf ls)
  let y := df.map (·.monthly_rent)
  let pairs := shuffle (X.zip y)
  let nTest := testSize pairs.length
  let testPairs := pairs.take nTest
  let trainPairs := pairs.drop nTest
  let base := fitAlg (trainPairs.map Prod.fst) (trainPairs.map Prod.snd)
  { le_floor := lf
    le_style := ls
    base_model := base
    mapie := { estimator := base
               method := "plus"
               cv := "prefit"
               calibX := trainPairs.map Prod.fst
               calibY := trainPairs.map Prod.snd }
    heldX := testPairs.map Prod.fst
    heldY := testPairs.map Prod.snd
    evalAlpha := 5 / 100 }

/-- The two advisory warnings of `app.py`: surface below 15 m² per room,
and more bathrooms than rooms. -/
structure AppWarnings where
  surfaceWarning : Bool
  bathroomsWarning : Bool
deriving Repr, DecidableEq

/-- `app.py` warning logic: `if total_surface < rooms * 15` and
`if bathrooms > rooms`. -/
def app_warnings (rooms bathrooms : Int) (total_surface : ℚ) : AppWarnings :=
  { surfaceWarning := decide (total_surface < (rooms : ℚ) * 15)
    bathroomsWarning := decide (rooms < bathrooms) }

/-- The one-row `input_data` DataFrame of `app.py` as a column-name ↦
value association list, before column reordering. -/
def appRow (art : Artifacts) (rooms bathrooms : Int) (total_surface : ℚ)
    (building_age : Int) (floor_material style : String) : List (String × ℚ) :=
  [("rooms", (rooms : ℚ)),
   ("bathrooms", (bathrooms : ℚ)),
   ("total_surface", total_surface),
   ("building_age", (building_age : ℚ)),
   ("floor_material_encoded", (art.le_floor.transform floor_material : ℚ)),
   ("style_encoded", (art.le_style.transform style : ℚ))]

/-- `input_data = input_data[features]` of `app.py`: the row projected to
the training column order (every name in `features` is a column of the
frame, so the lookup always succeeds; 0 is an unreachable default). -/
def appInputVector (art : Artifacts) (rooms bathrooms : Int) (total_surface : ℚ)
    (building_age : Int) (floor_material style : String) : List ℚ :=
  features.map fun c =>
    ((appRow art rooms bathrooms total_surface building_age floor_material style).lookup c).getD 0

/-- The prediction call of `app.py`:
`models['conformal_model'].predict(input_data, alpha=0.05)`. -/
def app_predict (art : Artifacts) (rooms bathrooms : Int) (total_surface : ℚ)
    (building_age : Int) (floor_material style : String) : ConformalOutput :=
  art.conformalPredict
    (appInputVector art rooms bathrooms total_surface building_age floor_material style)
    (5 / 100)

/-- One render cycle of `app.py` after the inputs are set: the two
advisory warnings are emitted unconditionally, and the predict sequence
runs exactly when the Calculate button was pressed. -/
def app_render (art : Artifacts) (rooms bathrooms : Int) (total_surface : ℚ)
    (building_age : Int) (floor_material style : String) (calculate : Bool) :
    AppWarnings × Option ConformalOutput :=
  (app_warnings rooms bathrooms total_surface,
   if calculate then
     some (app_predict art rooms bathrooms total_surface building_age floor_material style)
   else none)

/-- A fixed sample random source for concrete evaluations of the generator. -/
def sampleRng : GenRng :=
  { roomsDraw := fun _ => 2
    bathroomsDraw := fun _ => 1
    surfaceDraw := fun _ => 80
    ageDraw := fun _ => 10
    floorDraw := fun _ => "Hardwood"
    styleDraw := fun _ => "Modern"
    noiseDraw := fun _ => 1 }

/-- A concrete artifact set: the label sets of the generator, fitted as the
trainer fits them, with a constant conformal wrapper. -/
def sampleArtifacts : Artifacts :=
  { le_floor := LabelEncoder.fit floor_materials
    le_style := LabelEncoder.fit styles
    conformalPredict := fun _ _ => ⟨1500, 1200, 1800⟩ }

/-- A second concrete artifact set with entirely different label sets. -/
def sampleArtifactsB : Artifacts :=
  { le_floor := ⟨ ["Marble", "Stone"]⟩
    le_style := ⟨ ["Gothic"]⟩
    conformalPredict := fun _ _ => ⟨0, 0, 0⟩ }

/-! ### Helper lemmas -/

/-- Round-trip of a fitted label encoder on any member of its class set. -/
lemma LabelEncoder.inverse_transform_of_mem (le : LabelEncoder) {s : String}
    (h : s ∈ le.classes) : le.inverse (le.transform s) = some s := by
  unfold LabelEncoder.inverse LabelEncoder.transform
  exact List.indexOf_get? h

/-- Rounding to two decimals is monotone. -/
lemma round2_mono {a b : ℚ} (h : a ≤ b) : round2 a ≤ round2 b := by
  unfold round2
  have hr : round (100 * a) ≤ round (100 * b) := by
    rw [round_eq, round_eq]
    exact Int.floor_le_floor (by linarith)
  have h2 : ((round (100 * a) : ℤ) : ℚ) ≤ ((round (100 * b) : ℤ) : ℚ) := by
    exact_mod_cast hr
  linarith

lemma sampleRng_valid : sampleRng.Valid := by
  refine ⟨fun _ => ?_, fun _ => ?_, fun _ => ?_, fun _ => ?_, fun _ => ?_, fun _ => ?_,
    fun _ => ?_⟩ <;> simp [sampleRng, floor_materials, styles] <;> norm_num

/-- If the body validates, the endpoint runs the handler on the parsed
features. -/
lemma handle_predict_ok {r : RawFeatures} {f : ApartmentFeatures} (art : Artifacts)
    (h : validateFeatures r = .ok f) : handle_predict art r = predict_rent art f := by
  unfold handle_predict
  rw [h]

/-- A body with at least one bound violation is rejected by request
validation. -/
lemma validateFeatures_error_of_ne {r : RawFeatures} (h : boundViolations r ≠ []) :
    validateFeatures r = .error (.validation (boundViolations r)) := by
  unfold validateFeatures
  split
  · rename_i heq
    exact absurd heq h
  · rfl

/-- A body with no bound violation parses to the corresponding features. -/
lemma validateFeatures_ok_of_nil {r : RawFeatures} (h : boundViolations r = []) :
    validateFeatures r =
      .ok ⟨r.rooms, r.bathrooms, r.total_surface, r.building_age, r.floor_material, r.style⟩ := by
  unfold validateFeatures
  split
  · rfl
  · rename_i vs heq
    rw [h] at heq
    exact absurd rfl heq

/-- The bound-violation list is empty exactly when every numeric field is
within its declared bounds. -/
lemma boundViolations_eq_nil_iff (r : RawFeatures) :
    boundViolations r = [] ↔
      (1 ≤ r.rooms ∧ r.rooms ≤ 5 ∧ 1 ≤ r.bathrooms ∧ r.bathrooms ≤ 3 ∧
       30 ≤ r.total_surface ∧ r.total_surface ≤ 200 ∧
       0 ≤ r.building_age ∧ r.building_age ≤ 50) := by
  unfold boundViolations
  simp only [List.append_eq_nil, ite_eq_right_iff]
  constructor
  · rintro ⟨⟨⟨h1, h2⟩, h3⟩, h4⟩
    have c1 : ¬(r.rooms < 1 ∨ 5 < r.rooms) := fun hc => by simpa using h1 hc
    have c2 : ¬(r.bathrooms < 1 ∨ 3 < r.bathrooms) := fun hc => by simpa using h2 hc
    have c3 : ¬(r.total_surface < 30 ∨ 200 < r.total_surface) := fun hc => by simpa using h3 hc
    have c4 : ¬(r.building_age < 0 ∨ 50 < r.building_age) := fun hc => by simpa using h4 hc
    push_neg at c1 c2 c3 c4
    exact ⟨c1.1, c1.2, c2.1, c2.2, c3.1, c3.2, c4.1, c4.2⟩
  · rintro ⟨a1, a2, b1, b2, s1, s2, g1, g2⟩
    refine ⟨⟨⟨fun hc => ?_, fun hc => ?_⟩, fun hc => ?_⟩, fun hc => ?_⟩ <;> exfalso <;>
      rcases hc with hc | hc
    · omega
    · omega
    · omega
    · omega
    · linarith
    · linarith
    · omega
    · omega

/-! ### Claims -/

/-- Claim C1: a request whose numeric fields validate but whose
`floor_material` (or `style`) is not in the corresponding encoder's class
set is answered with an `HTTPException` of status 400 whose detail
enumerates that encoder's full class list, and every error such a request
can produce has status 400, never 500. -/
theorem C1_unknown_label_client_error (art : Artifacts) (r : RawFeatures)
    (f : ApartmentFeatures) (hv : validateFeatures r = .ok f) :
    (f.floor_material ∉ art.le_floor.classes →
      handle_predict art r =
        .error (.http 400 "Invalid floor_material. Valid values are:" art.le_floor.classes)) ∧
    (f.floor_material ∈ art.le_floor.classes → f.style ∉ art.le_style.classes →
      handle_predict art r =
        .error (.http 400 "Invalid style. Valid values are:" art.le_style.classes)) ∧
    (∀ e, handle_predict art r = .error e → e.status = 400 ∧ e.status ≠ 500) := by
  refine ⟨?_, ?_, ?_⟩
  · intro hf
    rw [handle_predict_ok art hv]
    unfold predict_rent
    rw [if_pos hf]
  · intro hf hs
    rw [handle_predict_ok art hv]
    unfold predict_rent
    rw [if_neg (not_not_intro hf), if_pos hs]
  · intro e he
    rw [handle_predict_ok art hv] at he
    unfold predict_rent at he
    split_ifs at he
    · injection he with h
      subst h
      exact ⟨rfl, by simp [ApiError.status]⟩
    · injection he with h
      subst h
      exact ⟨rfl, by simp [ApiError.status]⟩

/-- Witness for C1: `floor_material = "Marble"` with in-bound numerics is
rejected with the 400 error listing the five fitted floor materials. -/
theorem C1_unknown_label_client_error_witness :
    validateFeatures ⟨2, 1, 80, 10, "Marble", "Modern"⟩ =
      .ok ⟨2, 1, 80, 10, "Marble", "Modern"⟩ ∧
    "Marble" ∉ sampleArtifacts.le_floor.classes ∧
    handle_predict sampleArtifacts ⟨2, 1, 80, 10, "Marble", "Modern"⟩ =
      .error (.http 400 "Invalid floor_material. Valid values are:"
        sampleArtifacts.le_floor.classes) :=
  ⟨rfl, by decide,
   (C1_unknown_label_client_error sampleArtifacts ⟨2, 1, 80, 10, "Marble", "Modern"⟩
     ⟨2, 1, 80, 10, "Marble", "Modern"⟩ rfl).1 (by decide)⟩

/-- Claim C2 counterexample: two artifact states with different encoder
class sets produce `/info` responses with different categorical lists but
byte-identical numeric bounds: the bounds are hard-coded constants of the
handler, not values sourced from the loaded artifacts (the artifact set
contains no numeric bounds at all), refuting the claim's assertion that
the numeric bounds are "sourced from the live artifacts rather than
hard-coded". -/
theorem C2_info_bounds_hardcoded :
    (model_info sampleArtifacts).floor_materials ≠ (model_info sampleArtifactsB).floor_materials ∧
    (model_info sampleArtifacts).styles ≠ (model_info sampleArtifactsB).styles ∧
    (model_info sampleArtifacts).roomsBounds = (model_info sampleArtifactsB).roomsBounds ∧
    (model_info sampleArtifacts).bathroomsBounds = (model_info sampleArtifactsB).bathroomsBounds ∧
    (model_info sampleArtifacts).total_surfaceBounds
      = (model_info sampleArtifactsB).total_surfaceBounds ∧
    (model_info sampleArtifacts).building_ageBounds
      = (model_info sampleArtifactsB).building_ageBounds :=
  ⟨by decide, by decide, rfl, rfl, rfl, rfl⟩

/-- Claim C2 (amended): `/info`'s categorical lists are read live from the
same encoder objects `/predict` validates against, so they always agree;
and the numeric bounds `/info` reports equal the bounds request validation
enforces — rooms 1–5, bathrooms 1–3, total_surface 30–200,
building_age 0–50 — though both are hard-coded literals, not values read
from the artifacts. -/
theorem C2_info_agrees_with_predict (art : Artifacts) (r : RawFeatures) :
    (model_info art).floor_materials = art.le_floor.classes ∧
    (model_info art).styles = art.le_style.classes ∧
    (model_info art).roomsBounds = (1, 5) ∧
    (model_info art).bathroomsBounds = (1, 3) ∧
    (model_info art).total_surfaceBounds = (30, 200) ∧
    (model_info art).building_ageBounds = (0, 50) ∧
    ((∃ f, validateFeatures r = .ok f) ↔
      (1 ≤ r.rooms ∧ r.rooms ≤ 5 ∧ 1 ≤ r.bathrooms ∧ r.bathrooms ≤ 3 ∧
       30 ≤ r.total_surface ∧ r.total_surface ≤ 200 ∧
       0 ≤ r.building_age ∧ r.building_age ≤ 50)) := by
  refine ⟨rfl, rfl, rfl, rfl, rfl, rfl, ?_⟩
  rw [← boundViolations_eq_nil_iff]
  constructor
  · rintro ⟨f, hf⟩
    by_contra hne
    rw [validateFeatures_error_of_ne hne] at hf
    cases hf
  · intro h
    exact ⟨_, validateFeatures_ok_of_nil h⟩

/-- Claim C3 counterexample: `rooms = 6` with all other fields valid is
rejected by FastAPI request validation with HTTP status 422, not 400 as
the claim states. -/
theorem C3_validation_status_not_400 :
    handle_predict sampleArtifacts ⟨6, 1, 80, 10, "Hardwood", "Modern"⟩ =
      .error (.validation [⟨ "rooms", 1, 5⟩]) ∧
    (ApiError.validation [⟨ "rooms", 1, 5⟩]).status = 422 ∧
    (ApiError.validation [⟨ "rooms", 1, 5⟩]).status ≠ 400 :=
  ⟨rfl, rfl, by decide⟩

/-- Claim C3 (amended): a request with any numeric field outside its
declared bound is rejected by request validation before the model is
invoked (the outcome is the same for every loaded artifact set, so the
conformal wrapper is never consulted), with a client error of HTTP status
422 — FastAPI's request-validation status, not 400 — whose detail names
each violated field together with its declared bounds. -/
theorem C3_out_of_bounds_rejected (r : RawFeatures)
    (hbad : (r.rooms < 1 ∨ 5 < r.rooms) ∨ (r.bathrooms < 1 ∨ 3 < r.bathrooms) ∨
      (r.total_surface < 30 ∨ 200 < r.total_surface) ∨
      (r.building_age < 0 ∨ 50 < r.building_age)) :
    boundViolations r ≠ [] ∧
    (∀ art, handle_predict art r = .error (.validation (boundViolations r))) ∧
    ((r.rooms < 1 ∨ 5 < r.rooms) →
      (⟨ "rooms", 1, 5⟩ : FieldViolation) ∈ boundViolations r) ∧
    ((r.bathrooms < 1 ∨ 3 < r.bathrooms) →
      (⟨ "bathrooms", 1, 3⟩ : FieldViolation) ∈ boundViolations r) ∧
    ((r.total_surface < 30 ∨ 200 < r.total_surface) →
      (⟨ "total_surface", 30, 200⟩ : FieldViolation) ∈ boundViolations r) ∧
    ((r.building_age < 0 ∨ 50 < r.building_age) →
      (⟨ "building_age", 0, 50⟩ : FieldViolation) ∈ boundViolations r) ∧
    (ApiError.validation (boundViolations r)).status = 422 := by
  have hne : boundViolations r ≠ [] := by
    rw [Ne, boundViolations_eq_nil_iff]
    rintro ⟨a1, a2, b1, b2, s1, s2, g1, g2⟩
    rcases hbad with (h | h) | (h | h) | (h | h) | (h | h) <;> first | omega | linarith
  refine ⟨hne, ?_, ?_, ?_, ?_, ?_, rfl⟩
  · intro art
    unfold handle_predict
    rw [validateFeatures_error_of_ne hne]
  · intro h
    unfold boundViolations
    rw [if_pos h]
    simp
  · intro h
    unfold boundViolations
    rw [if_pos h]
    simp
  · intro h
    unfold boundViolations
    rw [if_pos h]
    simp
  · intro h
    unfold boundViolations
    rw [if_pos h]
    simp

/-- Witness for C3 (amended) at `bathrooms = 4`. -/
theorem C3_out_of_bounds_rejected_witness :
    ((4 : Int) < 1 ∨ (3 : Int) < 4) ∧
    (boundViolations ⟨2, 4, 80, 10, "Hardwood", "Modern"⟩ ≠ [] ∧
     (∀ art, handle_predict art ⟨2, 4, 80, 10, "Hardwood", "Modern"⟩ =
       .error (.validation (boundViolations ⟨2, 4, 80, 10, "Hardwood", "Modern"⟩))) ∧
     (((2 : Int) < 1 ∨ (5 : Int) < 2) →
       (⟨ "rooms", 1, 5⟩ : FieldViolation) ∈ boundViolations ⟨2, 4, 80, 10, "Hardwood", "Modern"⟩) ∧
     (((4 : Int) < 1 ∨ (3 : Int) < 4) →
       (⟨ "bathrooms", 1, 3⟩ : FieldViolation) ∈
         boundViolations ⟨2, 4, 80, 10, "Hardwood", "Modern"⟩) ∧
     (((80 : ℚ) < 30 ∨ (200 : ℚ) < 80) →
       (⟨ "total_surface", 30, 200⟩ : FieldViolation) ∈
         boundViolations ⟨2, 4, 80, 10, "Hardwood", "Modern"⟩) ∧
     (((10 : Int) < 0 ∨ (50 : Int) < 10) →
       (⟨ "building_age", 0, 50⟩ : FieldViolation) ∈
         boundViolations ⟨2, 4, 80, 10, "Hardwood", "Modern"⟩) ∧
     (ApiError.validation (boundViolations ⟨2, 4, 80, 10, "Hardwood", "Modern"⟩)).status = 422) :=
  ⟨by decide,
   C3_out_of_bounds_rejected ⟨2, 4, 80, 10, "Hardwood", "Modern"⟩ (by decide)⟩

/-- Claim C4: on a validated request with known categoricals, whenever the
conformal wrapper's raw interval is ordered, the endpoint returns the
wrapper's point estimate and bounds rounded to two decimals, the labels
"95%" and "USD", and the validated input echoed unchanged, with
`lower ≤ upper` after rounding. -/
theorem C4_response_contract (art : Artifacts) (r : RawFeatures)
    (f : ApartmentFeatures) (hv : validateFeatures r = .ok f)
    (hfm : f.floor_material ∈ art.le_floor.classes)
    (hst : f.style ∈ art.le_style.classes)
    (hord : (apiRawPrediction art f).lower ≤ (apiRawPrediction art f).upper) :
    handle_predict art r = .ok
      { predicted_rent := round2 (apiRawPrediction art f).prediction
        ci_lower := round2 (apiRawPrediction art f).lower
        ci_upper := round2 (apiRawPrediction art f).upper
        confidence_level := "95%"
        currency := "USD"
        features := f } ∧
    round2 (apiRawPrediction art f).lower ≤ round2 (apiRawPrediction art f).upper := by
  refine ⟨?_, round2_mono hord⟩
  rw [handle_predict_ok art hv]
  unfold predict_rent
  rw [if_neg (not_not_intro hfm), if_neg (not_not_intro hst)]

/-- Witness for C4 on the spec's end-to-end example vector. -/
theorem C4_response_contract_witness :
    validateFeatures ⟨2, 1, 80, 10, "Hardwood", "Modern"⟩ =
      .ok ⟨2, 1, 80, 10, "Hardwood", "Modern"⟩ ∧
    "Hardwood" ∈ sampleArtifacts.le_floor.classes ∧
    "Modern" ∈ sampleArtifacts.le_style.classes ∧
    (apiRawPrediction sampleArtifacts ⟨2, 1, 80, 10, "Hardwood", "Modern"⟩).lower ≤
      (apiRawPrediction sampleArtifacts ⟨2, 1, 80, 10, "Hardwood", "Modern"⟩).upper ∧
    (handle_predict sampleArtifacts ⟨2, 1, 80, 10, "Hardwood", "Modern"⟩ = .ok
      { predicted_rent :=
          round2 (apiRawPrediction sampleArtifacts ⟨2, 1, 80, 10, "Hardwood", "Modern"⟩).prediction
        ci_lower :=
          round2 (apiRawPrediction sampleArtifacts ⟨2, 1, 80, 10, "Hardwood", "Modern"⟩).lower
        ci_upper :=
          round2 (apiRawPrediction sampleArtifacts ⟨2, 1, 80, 10, "Hardwood", "Modern"⟩).upper
        confidence_level := "95%"
        currency := "USD"
        features := ⟨2, 1, 80, 10, "Hardwood", "Modern"⟩ } ∧
     round2 (apiRawPrediction sampleArtifacts ⟨2, 1, 80, 10, "Hardwood", "Modern"⟩).lower ≤
       round2 (apiRawPrediction sampleArtifacts ⟨2, 1, 80, 10, "Hardwood", "Modern"⟩).upper) :=
  ⟨rfl, by decide, by decide, by decide,
   C4_response_contract sampleArtifacts ⟨2, 1, 80, 10, "Hardwood", "Modern"⟩
     ⟨2, 1, 80, 10, "Hardwood", "Modern"⟩ rfl (by decide) (by decide) (by decide)⟩

/-- Claim C6: the trainer holds out `ceil(n / 5)` rows (an 80/20 split),
fits the base regressor on exactly the remaining training rows over the
six encoded features, wraps that already-fitted regressor unchanged in
the MAPIE layer with `cv = "prefit"` (no refit) and `method = "plus"`,
and evaluates at `alpha = 0.05`. -/
theorem C6_trainer_pipeline {R : Type} (df : List DataRow)
    (fitAlg : List (List ℚ) → List ℚ → R)
    (shuffle : List (List ℚ × ℚ) → List (List ℚ × ℚ))
    (hperm : ∀ l, (shuffle l).Perm l) :
    (train_model df fitAlg shuffle).heldX.length = testSize df.length ∧
    (train_model df fitAlg shuffle).mapie.calibX.length = df.length - testSize df.length ∧
    (train_model df fitAlg shuffle).base_model =
      fitAlg (train_model df fitAlg shuffle).mapie.calibX
        (train_model df fitAlg shuffle).mapie.calibY ∧
    (train_model df fitAlg shuffle).mapie.estimator = (train_model df fitAlg shuffle).base_model ∧
    (train_model df fitAlg shuffle).mapie.cv = "prefit" ∧
    (train_model df fitAlg shuffle).mapie.method = "plus" ∧
    (train_model df fitAlg shuffle).evalAlpha = 5 / 100 ∧
    (∀ x ∈ (train_model df fitAlg shuffle).mapie.calibX, x.length = 6) ∧
    (∀ x ∈ (train_model df fitAlg shuffle).heldX, x.length = 6) := by
  have hlen : (shuffle ((df.map (encodeRow
      (LabelEncoder.fit (df.map (·.floor_material)))
      (LabelEncoder.fit (df.map (·.style))))).zip (df.map (·.monthly_rent)))).length
      = df.length := by
    rw [(hperm _).length_eq, List.length_zip, List.length_map, List.length_map, min_self]
  have hmem : ∀ p ∈ shuffle ((df.map (encodeRow
      (LabelEncoder.fit (df.map (·.floor_material)))
      (LabelEncoder.fit (df.map (·.style))))).zip (df.map (·.monthly_rent))),
      p.1.length = 6 := by
    intro p hp
    have hp2 := (hperm _).mem_iff.mp hp
    have hp3 := (List.of_mem_zip hp2).1
    obtain ⟨row, -, hrow⟩ := List.mem_map.mp hp3
    rw [← hrow]
    rfl
  have htest : testSize df.length ≤ df.length := by
    unfold testSize
    omega
  unfold train_model
  refine ⟨?_, ?_, rfl, rfl, rfl, rfl, rfl, ?_, ?_⟩
  · dsimp only
    rw [List.length_map, List.length_take, hlen, min_eq_left htest]
  · dsimp only
    rw [List.length_map, List.length_drop, hlen]
  · dsimp only
    intro x hx
    obtain ⟨p, hp, hpx⟩ := List.mem_map.mp hx
    rw [← hpx]
    exact hmem p (List.mem_of_mem_drop hp)
  · dsimp only
    intro x hx
    obtain ⟨p, hp, hpx⟩ := List.mem_map.mp hx
    rw [← hpx]
    exact hmem p (List.mem_of_mem_take hp)

/-- Witness for C6 on a concrete six-row dataset with the identity
shuffle and a fit algorithm that records its inputs. -/
theorem C6_trainer_pipeline_witness :
    let df : List DataRow :=
      [⟨2, 1, 80, 10, "Hardwood", "Modern", 1500⟩,
       ⟨3, 2, 120, 5, "Tile", "Industrial", 2000⟩,
       ⟨1, 1, 40, 30, "Carpet", "Modern", 900⟩,
       ⟨4, 2, 150, 20, "Vinyl", "Minimalist", 2400⟩,
       ⟨5, 3, 190, 0, "Laminate", "Traditional", 3000⟩,
       ⟨2, 1, 60, 45, "Hardwood", "Contemporary", 1000⟩]
    let t := train_model df (fun X y => (X, y)) id
    t.heldX.length = testSize df.length ∧
    t.mapie.calibX.length = df.length - testSize df.length ∧
    t.base_model = (fun X y => (X, y)) t.mapie.calibX t.mapie.calibY ∧
    t.mapie.estimator = t.base_model ∧
    t.mapie.cv = "prefit" ∧
    t.mapie.method = "plus" ∧
    t.evalAlpha = 5 / 100 ∧
    (∀ x ∈ t.mapie.calibX, x.length = 6) ∧
    (∀ x ∈ t.heldX, x.length = 6) :=
  C6_trainer_pipeline _ (fun X y => (X, y)) id (fun l => List.Perm.refl l)

/-- Claim C7: for identical inputs and loaded artifacts, the form and the
service build the same encoded vector — in the training column order,
with the same encoder mappings — and make the same conformal call at
`alpha = 0.05`, so both front ends obtain the same point estimate and
interval. -/
theorem C7_front_ends_agree (art : Artifacts) (rooms bathrooms : Int)
    (total_surface : ℚ) (building_age : Int) (fm st : String) (rent : ℚ) :
    appInputVector art rooms bathrooms total_surface building_age fm st =
      apiFeaturesArray art ⟨rooms, bathrooms, total_surface, building_age, fm, st⟩ ∧
    appInputVector art rooms bathrooms total_surface building_age fm st =
      encodeRow art.le_floor art.le_style
        ⟨rooms, bathrooms, total_surface, building_age, fm, st, rent⟩ ∧
    app_predict art rooms bathrooms total_surface building_age fm st =
      art.conformalPredict
        (apiFeaturesArray art ⟨rooms, bathrooms, total_surface, building_age, fm, st⟩)
        (5 / 100) ∧
    app_predict art rooms bathrooms total_surface building_age fm st =
      apiRawPrediction art ⟨rooms, bathrooms, total_surface, building_age, fm, st⟩ :=
  ⟨rfl, rfl, rfl, rfl⟩

/-- Claim C8: for every label in a fitted encoder's class set, encoding then
decoding by inverse lookup returns the original label, for both the
floor-material encoder and the style encoder produced by `train_model`. -/
theorem C8_encoder_roundtrip {R : Type} (df : List DataRow)
    (fitAlg : List (List ℚ) → List ℚ → R)
    (shuffle : List (List ℚ × ℚ) → List (List ℚ × ℚ)) :
    (∀ s ∈ (train_model df fitAlg shuffle).le_floor.classes,
      (train_model df fitAlg shuffle).le_floor.inverse
        ((train_model df fitAlg shuffle).le_floor.transform s) = some s) ∧
    (∀ s ∈ (train_model df fitAlg shuffle).le_style.classes,
      (train_model df fitAlg shuffle).le_style.inverse
        ((train_model df fitAlg shuffle).le_style.transform s) = some s) :=
  ⟨fun _ h => LabelEncoder.inverse_transform_of_mem _ h,
   fun _ h => LabelEncoder.inverse_transform_of_mem _ h⟩

/-- Witness for C8 on a concrete two-row dataset. -/
theorem C8_encoder_roundtrip_witness :
    let df : List DataRow := [⟨2, 1, 80, 10, "Hardwood", "Modern", 1500⟩,
                              ⟨3, 2, 120, 5, "Tile", "Industrial", 2000⟩]
    let t := train_model df (fun X y => (X, y)) id
    ("Tile" ∈ t.le_floor.classes ∧ "Industrial" ∈ t.le_style.classes) ∧
    (t.le_floor.inverse (t.le_floor.transform "Tile") = some "Tile" ∧
     t.le_style.inverse (t.le_style.transform "Industrial") = some "Industrial") := by
  refine ⟨by decide, ?_, ?_⟩
  · exact (C8_encoder_roundtrip _ _ _).1 "Tile" (by decide)
  · exact (C8_encoder_roundtrip _ _ _).2 "Industrial" (by decide)

/-- Claim C9: the form warns exactly when `total_surface < 15 * rooms` and
exactly when `bathrooms > rooms`, and neither warning blocks submission:
the predict sequence still runs whenever Calculate is pressed. -/
theorem C9_warnings_advisory (art : Artifacts) (rooms bathrooms : Int)
    (total_surface : ℚ) (building_age : Int) (fm st : String) :
    ((app_render art rooms bathrooms total_surface building_age fm st true).1.surfaceWarning
        = true ↔ total_surface < (rooms : ℚ) * 15) ∧
    ((app_render art rooms bathrooms total_surface building_age fm st true).1.bathroomsWarning
        = true ↔ rooms < bathrooms) ∧
    (app_render art rooms bathrooms total_surface building_age fm st true).2
        = some (app_predict art rooms bathrooms total_surface building_age fm st) := by
  refine ⟨?_, ?_, rfl⟩ <;> simp [app_render, app_warnings]

/-- Claim C5: `generate_apartment_data` returns exactly `n` rows; every
row's rent is `max 500 (base * u)` for a multiplier `u` in `[0.8, 1.2]`,
hence at least 500; and all categoricals come from the fixed label sets. -/
theorem C5_generator (n : Nat) (g : GenRng) (hg : g.Valid) :
    (generate_apartment_data n g).length = n ∧
    ∀ row ∈ generate_apartment_data n g,
      (∃ u : ℚ, 8 / 10 ≤ u ∧ u ≤ 12 / 10 ∧
        row.monthly_rent =
          max 500 (baseRent row.rooms row.bathrooms row.total_surface row.building_age * u)) ∧
      500 ≤ row.monthly_rent ∧
      row.floor_material ∈ floor_materials ∧ row.style ∈ styles := by
  obtain ⟨-, -, -, -, hfloor, hstyle, hnoise⟩ := hg
  refine ⟨by simp [generate_apartment_data], ?_⟩
  intro row hrow
  obtain ⟨i, -, rfl⟩ := List.mem_map.mp hrow
  refine ⟨⟨g.noiseDraw i, (hnoise i).1, le_of_lt (hnoise i).2, max_comm _ _⟩,
    le_max_right _ _, hfloor i, hstyle i⟩

/-- Witness for C5 at a concrete sample count and random source. -/
theorem C5_generator_witness :
    sampleRng.Valid ∧
    ((generate_apartment_data 3 sampleRng).length = 3 ∧
     ∀ row ∈ generate_apartment_data 3 sampleRng,
       (∃ u : ℚ, 8 / 10 ≤ u ∧ u ≤ 12 / 10 ∧
         row.monthly_rent =
           max 500 (baseRent row.rooms row.bathrooms row.total_surface row.building_age * u)) ∧
       500 ≤ row.monthly_rent ∧
       row.floor_material ∈ floor_materials ∧ row.style ∈ styles) :=
  ⟨sampleRng_valid, C5_generator 3 sampleRng sampleRng_valid⟩

/-- Claim C10: generated rows always have `building_age ≤ 49` (the draw's
upper bound is exclusive) with `rooms` in 1–5 and `bathrooms` in 1–3,
while the service accepts `building_age = 50` as valid. -/
theorem C10_age_gap (n : Nat) (g : GenRng) (hg : g.Valid) :
    (∀ row ∈ generate_apartment_data n g,
      0 ≤ row.building_age ∧ row.building_age ≤ 49 ∧
      1 ≤ row.rooms ∧ row.rooms ≤ 5 ∧ 1 ≤ row.bathrooms ∧ row.bathrooms ≤ 3) ∧
    validateFeatures ⟨2, 1, 80, 50, "Hardwood", "Modern"⟩ =
      .ok ⟨2, 1, 80, 50, "Hardwood", "Modern"⟩ := by
  obtain ⟨hrooms, hbath, -, hage, -, -, -⟩ := hg
  refine ⟨?_, by rfl⟩
  intro row hrow
  obtain ⟨i, -, rfl⟩ := List.mem_map.mp hrow
  have h1 := hrooms i
  have h2 := hbath i
  have h3 := hage i
  dsimp only
  refine ⟨h3.1, by omega, h1.1, by omega, h2.1, by omega⟩

/-- Witness for C10 at a concrete sample count and random source. -/
theorem C10_age_gap_witness :
    sampleRng.Valid ∧
    ((∀ row ∈ generate_apartment_data 2 sampleRng,
       0 ≤ row.building_age ∧ row.building_age ≤ 49 ∧
       1 ≤ row.rooms ∧ row.rooms ≤ 5 ∧ 1 ≤ row.bathrooms ∧ row.bathrooms ≤ 3) ∧
     validateFeatures ⟨2, 1, 80, 50, "Hardwood", "Modern"⟩ =
       .ok ⟨2, 1, 80, 50, "Hardwood", "Modern"⟩) :=
  ⟨sampleRng_valid, C10_age_gap 2 sampleRng sampleRng_valid⟩

end RentApp
